import Mathlib

/-!
Shallow embedding of the trix vulnerability-monitoring daemon
(internal/server: db.go, notifier.go and the server poll loop), with
theorems checking the natural-language specification against it.

Timestamps are modelled as `Nat` (`time.Now()` becomes an explicit `now`
parameter); the SQL table becomes a `List VulnerabilityRecord`, with
`WHERE id = $n` updates modelled as a map over the rows, faithful to the
row-by-row semantics of the statements in db.go.
-/

namespace Trix

/-- State of a vulnerability lifecycle record, from db.go
(`StateOpen`/`StateFixed` constants). -/
inductive VulnerabilityState where
  | StateOpen : VulnerabilityState
  | StateFixed : VulnerabilityState
deriving DecidableEq, Repr

/-- One row of the `vulnerabilities` table, from the `VulnerabilityRecord`
struct in db.go. `FixedAt` is the nullable `fixed_at` column. -/
structure VulnerabilityRecord where
  ID : String
  CVE : String
  Workload : String
  Severity : String
  Image : String
  State : VulnerabilityState
  FirstSeen : Nat
  LastSeen : Nat
  FixedAt : Option Nat
deriving DecidableEq, Repr

/-- The query `SELECT ... FROM vulnerabilities WHERE id = $1` under the
primary-key constraint: the first row whose id matches. -/
def lookupVuln (s : List VulnerabilityRecord) (id : String) : Option VulnerabilityRecord :=
  s.find? (fun r => r.ID == id)

/-- The row written by the INSERT branch of `UpsertVulnerability`:
columns id..last_seen with `state = OPEN`, `first_seen = last_seen = now`;
`fixed_at` is not in the column list, so it takes its NULL default. -/
def insertedRecord (now : Nat) (v : VulnerabilityRecord) : VulnerabilityRecord :=
  { ID := v.ID, CVE := v.CVE, Workload := v.Workload, Severity := v.Severity,
    Image := v.Image, State := .StateOpen, FirstSeen := now, LastSeen := now,
    FixedAt := none }

/-- `DB.UpsertVulnerability` from db.go: look up the existing state by id;
absent → insert (isNew = true); present and FIXED → reopen, clearing
`fixed_at` and refreshing severity/image/last_seen (isNew = true); present
and OPEN → refresh severity/image/last_seen only (isNew = false). -/
def UpsertVulnerability (now : Nat) (v : VulnerabilityRecord)
    (s : List VulnerabilityRecord) : Bool × List VulnerabilityRecord :=
  match lookupVuln s v.ID with
  | none => (true, insertedRecord now v :: s)
  | some r =>
    if r.State = .StateFixed then
      (true, s.map (fun x =>
        if x.ID == v.ID then
          { x with State := .StateOpen, LastSeen := now, FixedAt := none,
                   Severity := v.Severity, Image := v.Image }
        else x))
    else
      (false, s.map (fun x =>
        if x.ID == v.ID then
          { x with LastSeen := now, Severity := v.Severity, Image := v.Image }
        else x))

/-- A row as scanned back from `UPDATE ... RETURNING id, cve, workload,
severity, image, first_seen` in `MarkFixed`/`markAllFixed`: Go sets
`State = FIXED` and `FixedAt = &now` on the scanned struct; `LastSeen`
is never scanned and stays the zero time (modelled as 0). -/
def scanFixedRow (now : Nat) (r : VulnerabilityRecord) : VulnerabilityRecord :=
  { ID := r.ID, CVE := r.CVE, Workload := r.Workload, Severity := r.Severity,
    Image := r.Image, State := .StateFixed, FirstSeen := r.FirstSeen,
    LastSeen := 0, FixedAt := some now }

/-- `DB.markAllFixed` from db.go: `UPDATE ... SET state = FIXED,
fixed_at = now WHERE state = OPEN RETURNING ...`. Returns the scanned
rows and the updated table. -/
def markAllFixed (now : Nat) (s : List VulnerabilityRecord) :
    List VulnerabilityRecord × List VulnerabilityRecord :=
  ((s.filter (fun r => r.State == .StateOpen)).map (scanFixedRow now),
   s.map (fun r =>
     if r.State == .StateOpen then
       { r with State := .StateFixed, FixedAt := some now }
     else r))

/-- `DB.MarkFixed` from db.go: with an empty current set it delegates to
`markAllFixed`; otherwise `UPDATE ... WHERE state = OPEN AND
id != ALL(currentIDs) RETURNING ...`. -/
def MarkFixed (now : Nat) (currentIDs : List String)
    (s : List VulnerabilityRecord) :
    List VulnerabilityRecord × List VulnerabilityRecord :=
  if currentIDs.isEmpty then
    markAllFixed now s
  else
    ((s.filter (fun r => r.State == .StateOpen && !(currentIDs.contains r.ID))).map
       (scanFixedRow now),
     s.map (fun r =>
       if r.State == .StateOpen && !(currentIDs.contains r.ID) then
         { r with State := .StateFixed, FixedAt := some now }
       else r))

/-- Column list of the `CREATE TABLE vulnerabilities` statement in
`DB.migrate` (db.go), in declaration order. -/
def migrateColumns : List String :=
  ["id", "cve", "workload", "severity", "image", "state",
   "first_seen", "last_seen", "fixed_at"]

/-- Primary-key column of the `vulnerabilities` table in `DB.migrate`. -/
def migratePrimaryKey : String := "id"

/-- The `CREATE INDEX` statements in `DB.migrate`: index name and the
column it covers. -/
def migrateIndexes : List (String × String) :=
  [("idx_vuln_state", "state"), ("idx_vuln_severity", "severity"),
   ("idx_vuln_cve", "cve"), ("idx_vuln_workload", "workload")]

/-- Column list that §6 of the specification claims for the persisted
schema (stated from the spec for comparison with `migrateColumns`). -/
def specClaimedColumns : List String :=
  ["id", "cve", "workload", "severity", "image", "state",
   "first_seen", "last_seen", "fixed_at", "synced"]

/-- `strings.ToUpper` as used in notifier.go, modelled character by
character (the severity strings involved are ASCII). -/
def toUpperStr (s : String) : String :=
  String.mk (s.data.map Char.toUpper)

/-- `severityLevel` from notifier.go: numeric rank of a severity string
after upper-casing; anything unrecognized ranks 5. -/
def severityLevel (s : String) : Nat :=
  let u := toUpperStr s
  if u = "CRITICAL" then 1
  else if u = "HIGH" then 2
  else if u = "MEDIUM" then 3
  else if u = "LOW" then 4
  else 5

/-- Modelled from the spec: the `VulnerabilityEvent` struct is declared in
code missing from src (its fields are fixed by uses in notifier.go and by
§3 of the spec): `{id, type NEW|FIXED, cve, workload, severity, image,
first_seen, fixed_at}`. -/
structure VulnerabilityEvent where
  ID : String
  EventType : String
  CVE : String
  Workload : String
  Severity : String
  Image : String
  FirstSeen : Nat
  FixedAt : Option Nat
deriving DecidableEq, Repr

/-- `Notifier.filterBySeverity` from notifier.go: keep the events whose
rank is at most the configured minimum severity rank. -/
def filterBySeverity (minSeverity : String) (events : List VulnerabilityEvent) :
    List VulnerabilityEvent :=
  events.filter (fun e => severityLevel e.Severity ≤ severityLevel minSeverity)

example : severityLevel "CRITICAL" = 1 := by decide
example : severityLevel "weird" = 5 := by decide
example : severityLevel "low" = 4 := by decide

/-- Modelled from the spec: the `Config` struct and `LoadConfig` live in
code missing from src; the fields here are the ones consulted by
notifier.go and the server poll loop (channel URLs, SaaS endpoint/key,
minimum notify severity, cluster name), per §6 of the spec and serve.go.
An empty string means the channel is not configured. -/
structure Config where
  SlackWebhook : String
  GenericWebhook : String
  SaasEndpoint : String
  SaasApiKey : String
  MinSeverity : String
  ClusterName : String
deriving DecidableEq, Repr

/-- Modelled from the spec: `Config.HasNotifications` is missing from src;
per §4.3/§4.4 it holds when at least one notification channel is
configured. -/
def HasNotifications (cfg : Config) : Bool :=
  cfg.SlackWebhook != "" || cfg.GenericWebhook != "" || cfg.SaasEndpoint != ""

/-- The three concrete notification channels of notifier.go:
Slack webhook, generic webhook, and the SaaS endpoint. -/
inductive Channel where
  | slack : Channel
  | webhook : Channel
  | saas : Channel
deriving DecidableEq, Repr

/-- Channels enabled by a configuration, in the order notifier.go
tries them (slack, then generic webhook, then SaaS). -/
def enabledChannels (cfg : Config) : List Channel :=
  (if cfg.SlackWebhook != "" then [Channel.slack] else []) ++
  (if cfg.GenericWebhook != "" then [Channel.webhook] else []) ++
  (if cfg.SaasEndpoint != "" then [Channel.saas] else [])

/-- Outcome of one aggregate notifier call: which channels were attempted
(in order), which of them failed (the collected `errs`), and whether the
call returned a non-nil combined error. -/
structure NotifyResult where
  attempted : List Channel
  failed : List Channel
  hasError : Bool
deriving DecidableEq, Repr

/-- Accumulator threaded through the per-channel `if` blocks of
`Notifier.Notify` / `Notifier.NotifyInitialized`. -/
structure NotifyAcc where
  attempted : List Channel
  errs : List Channel
deriving DecidableEq, Repr

/-- One `if n.config.X != "" { if err := send(...); err != nil { errs =
append(errs, err) } }` block: `outcome c = true` models the transport
send succeeding. -/
def tryChannel (enabled : Bool) (c : Channel) (outcome : Channel → Bool)
    (acc : NotifyAcc) : NotifyAcc :=
  if enabled then
    { attempted := acc.attempted ++ [c],
      errs := if outcome c then acc.errs else acc.errs ++ [c] }
  else acc

/-- The shared body of `Notifier.Notify` / `Notifier.NotifyInitialized`
in notifier.go: try slack, then the generic webhook, then SaaS, collecting
errors; return a combined error exactly when `errs` is non-empty. -/
def notifyChannels (cfg : Config) (outcome : Channel → Bool) : NotifyResult :=
  let a1 := tryChannel (cfg.SlackWebhook != "") Channel.slack outcome
    { attempted := [], errs := [] }
  let a2 := tryChannel (cfg.GenericWebhook != "") Channel.webhook outcome a1
  let a3 := tryChannel (cfg.SaasEndpoint != "") Channel.saas outcome a2
  { attempted := a3.attempted, failed := a3.errs, hasError := !a3.errs.isEmpty }

/-- `Notifier.NotifyInitialized` from notifier.go: no severity filter,
every configured channel gets the summary. -/
def NotifyInitialized (cfg : Config) (outcome : Channel → Bool)
    (_events : List VulnerabilityEvent) : NotifyResult :=
  notifyChannels cfg outcome

/-- `Notifier.Notify` from notifier.go: filter by severity first; if
nothing is left, return nil without touching any channel; otherwise
deliver to every configured channel. -/
def Notify (cfg : Config) (outcome : Channel → Bool)
    (events : List VulnerabilityEvent) : NotifyResult :=
  let filtered := filterBySeverity cfg.MinSeverity events
  if filtered.isEmpty then
    { attempted := [], failed := [], hasError := false }
  else
    notifyChannels cfg outcome

/-- Modelled from the spec: one item of the Scanner Source result,
`{cve, workload, severity, image}` (§6, Scanner Source contract); the
Trivy-backed poller is missing from src. -/
structure ScanFinding where
  CVE : String
  Workload : String
  Severity : String
  Image : String
deriving DecidableEq, Repr

/-- Modelled from the spec: the stable fingerprint deterministically
derived from `(cve, workload)` (§3); the hashing code is missing from
src, so any injective deterministic combination is faithful. -/
def fingerprint (cve workload : String) : String :=
  cve ++ "|" ++ workload

/-- Modelled from the spec: the candidate `VulnerabilityRecord` built from
one observed finding (§4.2 step 1); only the identity and the mutable
severity/image fields are consulted by `UpsertVulnerability`. -/
def candidateRecord (now : Nat) (f : ScanFinding) : VulnerabilityRecord :=
  { ID := fingerprint f.CVE f.Workload, CVE := f.CVE, Workload := f.Workload,
    Severity := f.Severity, Image := f.Image, State := .StateOpen,
    FirstSeen := now, LastSeen := now, FixedAt := none }

/-- Modelled from the spec: the `NEW`-type `VulnerabilityEvent` projection
of a candidate record (§3). -/
def newEvent (r : VulnerabilityRecord) : VulnerabilityEvent :=
  { ID := r.ID, EventType := "NEW", CVE := r.CVE, Workload := r.Workload,
    Severity := r.Severity, Image := r.Image, FirstSeen := r.FirstSeen,
    FixedAt := r.FixedAt }

/-- Modelled from the spec: the `FIXED`-type `VulnerabilityEvent`
projection of a record returned by `MarkFixed` (§3, §4.2 step 3). -/
def fixedEvent (r : VulnerabilityRecord) : VulnerabilityEvent :=
  { ID := r.ID, EventType := "FIXED", CVE := r.CVE, Workload := r.Workload,
    Severity := r.Severity, Image := r.Image, FirstSeen := r.FirstSeen,
    FixedAt := r.FixedAt }

/-- Modelled from the spec: §4.2 step 2 — upsert every candidate in order,
collecting a `NEW` event per `isNew = true` result and the set of
fingerprints seen this cycle. -/
def pollUpserts (now : Nat) (findings : List ScanFinding)
    (s : List VulnerabilityRecord) :
    List VulnerabilityRecord × List VulnerabilityEvent × List String :=
  match findings with
  | [] => (s, [], [])
  | f :: rest =>
    let cand := candidateRecord now f
    let (isNew, s1) := UpsertVulnerability now cand s
    let (s2, events, seen) := pollUpserts now rest s1
    (s2, (if isNew then [newEvent cand] else []) ++ events, cand.ID :: seen)

/-- Modelled from the spec: `Poller.Poll` (§4.2) is missing from src.
Fetch the observed set (the fetch result is a parameter); on fetch failure
abort the cycle with the error and no store mutation; otherwise upsert
every candidate, mark everything unseen as fixed, and return the `NEW`
events followed by the `FIXED` events. -/
def Poll (now : Nat) (fetch : Except String (List ScanFinding))
    (s : List VulnerabilityRecord) :
    Except String (List VulnerabilityRecord × List VulnerabilityEvent) :=
  match fetch with
  | .error e => .error e
  | .ok findings =>
    let (s1, events, seen) := pollUpserts now findings s
    let (fixedRecs, s2) := MarkFixed now seen s1
    .ok (s2, events ++ fixedRecs.map fixedEvent)

/-- Result of a SaaS delivery, from the `SaasResult` uses in the server
poll loop: which event ids were durably accepted, which failed, and
whether an error occurred. The producing code is missing from src. -/
structure SaasResult where
  SyncedIDs : List String
  FailedIDs : List String
  HasErr : Bool
deriving DecidableEq, Repr

/-- The mutable server state relevant to one poll cycle: the store, the
delivery-tracking set (Modelled from the spec: the `synced` flag backing
`GetUnsyncedVulnerabilities`/`MarkSaasSynced` is absent from the src
schema), the `firstPoll` flag and the readiness flag of notifier.go. -/
structure ServerModelState where
  store : List VulnerabilityRecord
  syncedIds : List String
  firstPoll : Bool
  ready : Bool
deriving DecidableEq, Repr

/-- Calls the server poll cycle makes into the notifier and the
delivery-tracking store, recorded for the theorems. -/
inductive ServerCall where
  | retrySync : List VulnerabilityEvent → ServerCall
  | notifyInitialized : List VulnerabilityEvent → ServerCall
  | notifyIncremental : List VulnerabilityEvent → ServerCall
  | markSynced : List String → ServerCall
deriving DecidableEq, Repr

/-- The record-to-event conversion inside `Server.retrySaasSync`
(notifier.go): event type `NEW` unless the record is FIXED. -/
def recordToEvent (v : VulnerabilityRecord) : VulnerabilityEvent :=
  { ID := v.ID,
    EventType := if v.State = .StateFixed then "FIXED" else "NEW",
    CVE := v.CVE, Workload := v.Workload, Severity := v.Severity,
    Image := v.Image, FirstSeen := v.FirstSeen, FixedAt := v.FixedAt }

/-- Modelled from the spec: `DB.GetUnsyncedVulnerabilities` is missing
from src; per §4.1 it reads the records not yet acknowledged by the
remote-sync channel. -/
def GetUnsyncedVulnerabilities (st : ServerModelState) :
    List VulnerabilityRecord :=
  st.store.filter (fun r => !(st.syncedIds.contains r.ID))

/-- Modelled from the spec: `DB.MarkSaasSynced` is missing from src; per
§4.1 it records the given ids as durably delivered. -/
def MarkSaasSynced (ids : List String) (st : ServerModelState) :
    ServerModelState :=
  { st with syncedIds := st.syncedIds ++ ids }

/-- `Server.handleSaasResult` (notifier.go): persist the synced ids when
there are any; a `none` result (no SaaS part in the notification) does
nothing. -/
def handleSaasResult (res : Option SaasResult) (st : ServerModelState) :
    ServerModelState × List ServerCall :=
  match res with
  | none => (st, [])
  | some r =>
    if r.SyncedIDs.isEmpty then (st, [])
    else (MarkSaasSynced r.SyncedIDs st, [ServerCall.markSynced r.SyncedIDs])

/-- `Server.retrySaasSync` (notifier.go): read the unsynced records; if
none, return; otherwise convert them to events, send them over the SaaS
channel (`saasSend` models the missing `Notifier.SendSaas`) and persist
the accepted ids. -/
def retrySaasSync (saasSend : List VulnerabilityEvent → SaasResult)
    (st : ServerModelState) : ServerModelState × List ServerCall :=
  let unsynced := GetUnsyncedVulnerabilities st
  if unsynced.isEmpty then (st, [])
  else
    let events := unsynced.map recordToEvent
    let hr := handleSaasResult (some (saasSend events)) st
    (hr.1, ServerCall.retrySync events :: hr.2)

/-- `Server.poll` (notifier.go): run one cycle. On poll error, log and
return with nothing else done. Otherwise: skip everything if no channel
is configured; retry unsynced SaaS events when a SaaS endpoint is set; on
the first poll send the initialized summary exactly when the cycle
produced events, else just log; on later polls send the incremental
notification when the cycle produced events. `notifyResult` models the
SaaS part of the notifier call result consumed by `handleSaasResult`. -/
def serverPoll (cfg : Config) (now : Nat)
    (fetch : Except String (List ScanFinding))
    (notifyResult : List VulnerabilityEvent → Option SaasResult)
    (saasSend : List VulnerabilityEvent → SaasResult)
    (st : ServerModelState) : ServerModelState × List ServerCall :=
  match Poll now fetch st.store with
  | .error _ => (st, [])
  | .ok (store1, events) =>
    let st1 := { st with store := store1 }
    if !(HasNotifications cfg) then (st1, [])
    else
      let r2 :=
        if cfg.SaasEndpoint != "" then retrySaasSync saasSend st1
        else (st1, [])
      let st2 := r2.1
      let calls1 := r2.2
      if st2.firstPoll then
        let st3 := { st2 with firstPoll := false }
        if 0 < events.length then
          let hr := handleSaasResult (notifyResult events) st3
          (hr.1, calls1 ++ [ServerCall.notifyInitialized events] ++ hr.2)
        else (st3, calls1)
      else
        if 0 < events.length then
          let hr := handleSaasResult (notifyResult events) st2
          (hr.1, calls1 ++ [ServerCall.notifyIncremental events] ++ hr.2)
        else (st2, calls1)

/-- The `/healthz` handler of `Server.runHealthServer` (notifier.go):
always 200. -/
def healthzHandler (_st : ServerModelState) : Nat := 200

/-- The `/readyz` handler of `Server.runHealthServer` (notifier.go):
200 when the readiness flag is set, else 503. -/
def readyzHandler (st : ServerModelState) : Nat :=
  if st.ready then 200 else 503

/-- The server state as built by `server.New` (notifier.go): `firstPoll`
true and the atomic readiness flag at its false zero value, over whatever
store contents already exist. -/
def initialState (store0 : List VulnerabilityRecord) : ServerModelState :=
  { store := store0, syncedIds := [], firstPoll := true, ready := false }

/-- The first iteration of `Server.runPollLoop` (notifier.go): run one
poll cycle (whatever its outcome) and then set the readiness flag. -/
def runPollLoopFirst (cfg : Config) (now : Nat)
    (fetch : Except String (List ScanFinding))
    (notifyResult : List VulnerabilityEvent → Option SaasResult)
    (saasSend : List VulnerabilityEvent → SaasResult)
    (st : ServerModelState) : ServerModelState :=
  { (serverPoll cfg now fetch notifyResult saasSend st).1 with ready := true }

/-! Concrete fixtures used by witnesses and counterexamples. -/

/-- A configuration with only the Slack channel enabled and minimum
severity HIGH. -/
def cfgSlackHigh : Config :=
  { SlackWebhook := "https://hooks.example/slack", GenericWebhook := "",
    SaasEndpoint := "", SaasApiKey := "", MinSeverity := "HIGH",
    ClusterName := "test" }

/-- A transport outcome under which every channel send fails. -/
def outcomeFail : Channel → Bool := fun _ => false

/-- A notifier result with no SaaS part. -/
def noSaasResult : List VulnerabilityEvent → Option SaasResult := fun _ => none

/-- A SaaS send that accepts nothing and reports no error. -/
def saasSendNone : List VulnerabilityEvent → SaasResult :=
  fun _ => { SyncedIDs := [], FailedIDs := [], HasErr := false }

/-- A CRITICAL-severity event. -/
def evCritical : VulnerabilityEvent :=
  { ID := "id-crit", EventType := "NEW", CVE := "CVE-1",
    Workload := "ns/deploy/a", Severity := "CRITICAL", Image := "img",
    FirstSeen := 1, FixedAt := none }

/-- A MEDIUM-severity event. -/
def evMedium : VulnerabilityEvent :=
  { ID := "id-med", EventType := "NEW", CVE := "CVE-2",
    Workload := "ns/deploy/b", Severity := "MEDIUM", Image := "img",
    FirstSeen := 1, FixedAt := none }

/-- An event with an unrecognized severity string. -/
def evUnknown : VulnerabilityEvent :=
  { ID := "id-unk", EventType := "NEW", CVE := "CVE-3",
    Workload := "ns/deploy/c", Severity := "UNKNOWN", Image := "img",
    FirstSeen := 1, FixedAt := none }

/-- A LOW-severity event. -/
def evLow : VulnerabilityEvent :=
  { ID := "id-low", EventType := "NEW", CVE := "CVE-4",
    Workload := "ns/deploy/d", Severity := "LOW", Image := "img",
    FirstSeen := 1, FixedAt := none }

/-- An already-open record matching finding `findA`. -/
def recOpenA : VulnerabilityRecord :=
  { ID := fingerprint "CVE-1" "ns/deploy/a", CVE := "CVE-1",
    Workload := "ns/deploy/a", Severity := "HIGH", Image := "img",
    State := .StateOpen, FirstSeen := 1, LastSeen := 1, FixedAt := none }

/-- A finding re-observing `recOpenA`. -/
def findA : ScanFinding :=
  { CVE := "CVE-1", Workload := "ns/deploy/a", Severity := "HIGH",
    Image := "img" }

/-- A finding the store has never seen. -/
def findB : ScanFinding :=
  { CVE := "CVE-2", Workload := "ns/deploy/b", Severity := "CRITICAL",
    Image := "img2" }

/-- A server state just after a restart: the pre-existing store already
holds `recOpenA`, and no cycle has run yet. -/
def stRestart : ServerModelState :=
  { store := [recOpenA], syncedIds := [], firstPoll := true, ready := false }

/-- The invariant of §3: a FIXED record has `fixed_at` set and an OPEN
record has `fixed_at` null, for every record in the store. -/
def stateInv (s : List VulnerabilityRecord) : Prop :=
  ∀ r ∈ s, (r.State = .StateFixed → r.FixedAt ≠ none) ∧
           (r.State = .StateOpen → r.FixedAt = none)

/-! Theorems settling the claims. -/

/-- C1: in every poll cycle whose Scanner Source fetch fails, `Poll`
returns the error and the cycle performs no store mutation: `serverPoll`
leaves the state (store, delivery tracking, flags) exactly as it was and
makes no notifier or delivery-tracking call, so no record is upserted and
none is marked FIXED. -/
theorem poll_fetch_failure_no_mutation (cfg : Config) (now : Nat)
    (e : String) (notifyResult : List VulnerabilityEvent → Option SaasResult)
    (saasSend : List VulnerabilityEvent → SaasResult)
    (st : ServerModelState) :
    Poll now (.error e) st.store = .error e ∧
    serverPoll cfg now (.error e) notifyResult saasSend st = (st, []) :=
  ⟨rfl, rfl⟩

/-- C8: `/healthz` answers 200 in every server state; `/readyz` answers
503 in the initial state (before the first cycle completes) and 200 after
the first iteration of the poll loop, whatever fetch outcome the cycle
was (success or failure). -/
theorem healthz_readyz_first_cycle :
    (∀ st : ServerModelState, healthzHandler st = 200) ∧
    (∀ store0, readyzHandler (initialState store0) = 503) ∧
    (∀ cfg now fetch notifyResult saasSend st,
      (runPollLoopFirst cfg now fetch notifyResult saasSend st).ready = true ∧
      readyzHandler (runPollLoopFirst cfg now fetch notifyResult saasSend st) = 200) :=
  ⟨fun _ => rfl, fun _ => rfl, fun _ _ _ _ _ _ => ⟨rfl, rfl⟩⟩

/-- C9 counterexample: the claimed schema includes a `synced` column, but
the `CREATE TABLE` statement in `DB.migrate` has no such column. -/
theorem schema_synced_column_absent :
    "synced" ∈ specClaimedColumns ∧ "synced" ∉ migrateColumns := by
  decide

/-- C9 amended: the persisted schema is one table keyed by the
fingerprint with exactly the claimed columns except `synced`
(id, cve, workload, severity, image, state, first_seen, last_seen,
fixed_at), plus indexes on state, severity, cve and workload. -/
theorem schema_columns_and_indexes :
    migrateColumns = specClaimedColumns.filter (fun c => c != "synced") ∧
    migratePrimaryKey = "id" ∧
    migrateIndexes.map Prod.snd = ["state", "severity", "cve", "workload"] := by
  decide

/-- C10: when no event in the list reaches the configured minimum
severity, `Notify` attempts no channel at all and returns nil (no error),
even when channels are configured. -/
theorem notify_all_filtered_is_noop (cfg : Config) (outcome : Channel → Bool)
    (events : List VulnerabilityEvent)
    (h : ∀ e ∈ events,
      ¬ (severityLevel e.Severity ≤ severityLevel cfg.MinSeverity)) :
    Notify cfg outcome events =
      { attempted := [], failed := [], hasError := false } := by
  have hf : filterBySeverity cfg.MinSeverity events = [] := by
    unfold filterBySeverity
    rw [List.filter_eq_nil_iff]
    intro a ha
    simpa using h a ha
  unfold Notify
  rw [hf]
  rfl

/-- C10 witness: a LOW event against threshold HIGH with a configured,
failing Slack channel: the call is a silent no-op. -/
theorem notify_all_filtered_is_noop_witness :
    Notify cfgSlackHigh outcomeFail [evLow] =
      { attempted := [], failed := [], hasError := false } :=
  notify_all_filtered_is_noop cfgSlackHigh outcomeFail [evLow] (by decide)

/-- C6: the severity filter keeps exactly the events whose rank is at
most the rank of the configured minimum; the ranks are CRITICAL = 1, HIGH = 2,
MEDIUM = 3, LOW = 4 and anything else 5; with threshold HIGH a CRITICAL
event passes while MEDIUM and unknown-severity events are dropped. -/
theorem severity_filter_contract :
    (∀ m evs e, e ∈ filterBySeverity m evs ↔
      e ∈ evs ∧ severityLevel e.Severity ≤ severityLevel m) ∧
    (severityLevel "CRITICAL" = 1 ∧ severityLevel "HIGH" = 2 ∧
     severityLevel "MEDIUM" = 3 ∧ severityLevel "LOW" = 4) ∧
    (∀ s, toUpperStr s ≠ "CRITICAL" → toUpperStr s ≠ "HIGH" →
      toUpperStr s ≠ "MEDIUM" → toUpperStr s ≠ "LOW" →
      severityLevel s = 5) ∧
    (evCritical ∈ filterBySeverity "HIGH" [evCritical, evMedium, evUnknown] ∧
     evMedium ∉ filterBySeverity "HIGH" [evCritical, evMedium, evUnknown] ∧
     evUnknown ∉ filterBySeverity "HIGH" [evCritical, evMedium, evUnknown]) := by
  refine ⟨?_, by decide, ?_, by decide⟩
  · intro m evs e
    unfold filterBySeverity
    simp [List.mem_filter]
  · intro s h1 h2 h3 h4
    unfold severityLevel
    simp [h1, h2, h3, h4]

/-- C6 witness: the contract applied at the severity string `NONE`, which
is none of the four known severities and therefore ranks 5. -/
theorem severity_filter_contract_witness : severityLevel "NONE" = 5 :=
  severity_filter_contract.2.2.1 "NONE" (by decide) (by decide) (by decide)
    (by decide)

/-- Looking a row up by id after an id-preserving update of the rows
matching that id finds the updated row. -/
lemma find_update (l : List VulnerabilityRecord) (i : String)
    (g : VulnerabilityRecord → VulnerabilityRecord)
    (hg : ∀ x, (g x).ID = x.ID) :
    (l.map (fun x => if x.ID == i then g x else x)).find? (fun r => r.ID == i)
      = (l.find? (fun r => r.ID == i)).map g := by
  induction l with
  | nil => rfl
  | cons a t ih =>
    by_cases h : a.ID = i
    · have hb : (a.ID == i) = true := by simp [h]
      have hgb : ((g a).ID == i) = true := by rw [hg a]; exact hb
      simp only [List.map_cons]
      rw [if_pos hb]
      rw [@List.find?_cons_of_pos _ (fun r => r.ID == i) (g a) _ hgb]
      rw [@List.find?_cons_of_pos _ (fun r => r.ID == i) a t hb]
      rfl
    · have hb : (a.ID == i) = false := by simp [h]
      have hnot : ¬ ((a.ID == i) = true) := by simp [hb]
      simp only [List.map_cons]
      rw [if_neg hnot]
      rw [@List.find?_cons_of_neg _ (fun r => r.ID == i) a _ hnot]
      rw [@List.find?_cons_of_neg _ (fun r => r.ID == i) a t hnot]
      exact ih

/-- C3: the three-path contract of `UpsertVulnerability`. With no record
under the fingerprint, a record with state OPEN, `first_seen = last_seen
= now` and null `fixed_at` is inserted and isNew is true. With a FIXED
record present, it is reopened: state OPEN, `fixed_at` cleared, severity,
image and last_seen refreshed, and isNew is true. With an OPEN record
present, only severity, image and last_seen are refreshed and isNew is
false. -/
theorem upsert_three_path_contract (now : Nat) (v : VulnerabilityRecord)
    (s : List VulnerabilityRecord) :
    (lookupVuln s v.ID = none →
      (UpsertVulnerability now v s).1 = true ∧
      lookupVuln (UpsertVulnerability now v s).2 v.ID =
        some (insertedRecord now v) ∧
      (insertedRecord now v).State = .StateOpen ∧
      (insertedRecord now v).FirstSeen = now ∧
      (insertedRecord now v).LastSeen = now ∧
      (insertedRecord now v).FixedAt = none) ∧
    (∀ r, lookupVuln s v.ID = some r → r.State = .StateFixed →
      (UpsertVulnerability now v s).1 = true ∧
      lookupVuln (UpsertVulnerability now v s).2 v.ID =
        some { r with State := .StateOpen, LastSeen := now, FixedAt := none,
                      Severity := v.Severity, Image := v.Image }) ∧
    (∀ r, lookupVuln s v.ID = some r → r.State = .StateOpen →
      (UpsertVulnerability now v s).1 = false ∧
      lookupVuln (UpsertVulnerability now v s).2 v.ID =
        some { r with LastSeen := now, Severity := v.Severity,
                      Image := v.Image }) := by
  refine ⟨?_, ?_, ?_⟩
  · intro h
    have h1 : UpsertVulnerability now v s = (true, insertedRecord now v :: s) := by
      simp only [UpsertVulnerability, h]
    rw [h1]
    refine ⟨rfl, ?_, rfl, rfl, rfl, rfl⟩
    simp [lookupVuln, insertedRecord]
  · intro r hr hfix
    have h1 : UpsertVulnerability now v s = (true, s.map (fun x =>
        if x.ID == v.ID then
          { x with State := .StateOpen, LastSeen := now, FixedAt := none,
                   Severity := v.Severity, Image := v.Image }
        else x)) := by
      simp only [UpsertVulnerability, hr, if_pos hfix]
    rw [h1]
    refine ⟨rfl, ?_⟩
    unfold lookupVuln at hr ⊢
    rw [find_update s v.ID (fun x =>
      { x with State := .StateOpen, LastSeen := now, FixedAt := none,
               Severity := v.Severity, Image := v.Image }) (fun x => rfl), hr]
    rfl
  · intro r hr hopen
    have hne : ¬ (r.State = VulnerabilityState.StateFixed) := by
      rw [hopen]; decide
    have h1 : UpsertVulnerability now v s = (false, s.map (fun x =>
        if x.ID == v.ID then
          { x with LastSeen := now, Severity := v.Severity, Image := v.Image }
        else x)) := by
      simp only [UpsertVulnerability, hr, if_neg hne]
    rw [h1]
    refine ⟨rfl, ?_⟩
    unfold lookupVuln at hr ⊢
    rw [find_update s v.ID (fun x =>
      { x with LastSeen := now, Severity := v.Severity, Image := v.Image })
      (fun x => rfl), hr]
    rfl

/-- C3 witness: upserting into an empty store takes the insert path. -/
theorem upsert_three_path_contract_witness :
    (UpsertVulnerability 5 recOpenA []).1 = true ∧
    lookupVuln (UpsertVulnerability 5 recOpenA []).2 recOpenA.ID =
      some (insertedRecord 5 recOpenA) :=
  ⟨((upsert_three_path_contract 5 recOpenA []).1 rfl).1,
   ((upsert_three_path_contract 5 recOpenA []).1 rfl).2.1⟩

/-- C4: `MarkFixed` transitions exactly the OPEN records whose id is not
in the current set to FIXED with `fixed_at = now` and returns those
records (as scanned back); a record whose id is in the set is never
touched; with an empty set every OPEN record is marked FIXED. -/
theorem markFixed_contract (now : Nat) (ids : List String)
    (s : List VulnerabilityRecord) :
    (MarkFixed now ids s).2 = s.map (fun r =>
        if r.State == .StateOpen && !(ids.contains r.ID) then
          { r with State := .StateFixed, FixedAt := some now }
        else r) ∧
    (MarkFixed now ids s).1 = (s.filter (fun r =>
        r.State == .StateOpen && !(ids.contains r.ID))).map
        (scanFixedRow now) ∧
    (∀ r ∈ s, r.ID ∈ ids → r ∈ (MarkFixed now ids s).2) ∧
    (ids = [] → ∀ r ∈ s, r.State = .StateOpen →
      { r with State := .StateFixed, FixedAt := some now } ∈
        (MarkFixed now ids s).2) := by
  have hmain : (MarkFixed now ids s).2 = s.map (fun r =>
      if r.State == .StateOpen && !(ids.contains r.ID) then
        { r with State := .StateFixed, FixedAt := some now }
      else r) ∧
      (MarkFixed now ids s).1 = (s.filter (fun r =>
        r.State == .StateOpen && !(ids.contains r.ID))).map
        (scanFixedRow now) := by
    cases ids with
    | nil =>
      unfold MarkFixed markAllFixed
      simp
    | cons a t =>
      unfold MarkFixed
      simp
  refine ⟨hmain.1, hmain.2, ?_, ?_⟩
  · intro r hr hrid
    rw [hmain.1]
    have hc : ids.contains r.ID = true := by
      simpa [List.contains] using hrid
    have hcond : (r.State == VulnerabilityState.StateOpen &&
        !(ids.contains r.ID)) = false := by
      rw [hc]
      simp
    exact List.mem_map.mpr ⟨r, hr, by rw [hcond]; simp⟩
  · intro hnil r hr hropen
    rw [hmain.1]
    have hcond : (r.State == VulnerabilityState.StateOpen &&
        !(ids.contains r.ID)) = true := by
      subst hnil
      simp [hropen, List.contains]
    exact List.mem_map.mpr ⟨r, hr, by rw [hcond]; simp⟩

/-- C4 witness: a single open record whose id is in the current set is
left untouched by `MarkFixed`. -/
theorem markFixed_contract_witness :
    recOpenA ∈ (MarkFixed 9 [recOpenA.ID] [recOpenA]).2 :=
  (markFixed_contract 9 [recOpenA.ID] [recOpenA]).2.2.1 recOpenA
    (by simp) (by simp)

/-- The table left behind by `MarkFixed`, uniformly over both of its
branches: open rows outside the current set become FIXED with
`fixed_at = now`, everything else is untouched. -/
lemma markFixed_store_eq (now : Nat) (ids : List String)
    (s : List VulnerabilityRecord) :
    (MarkFixed now ids s).2 = s.map (fun r =>
      if r.State == .StateOpen && !(ids.contains r.ID) then
        { r with State := .StateFixed, FixedAt := some now }
      else r) := by
  cases ids with
  | nil => unfold MarkFixed markAllFixed; simp
  | cons a t => unfold MarkFixed; simp

/-- C5: the invariant `FIXED implies fixed_at set, OPEN implies fixed_at
null` holds of the freshly migrated (empty) store and is preserved by
every store operation: all three `UpsertVulnerability` paths and
`MarkFixed`. -/
theorem state_fixedAt_invariant :
    stateInv [] ∧
    (∀ now v s, stateInv s → stateInv (UpsertVulnerability now v s).2) ∧
    (∀ now ids s, stateInv s → stateInv (MarkFixed now ids s).2) := by
  refine ⟨fun r hr => absurd hr (List.not_mem_nil r), ?_, ?_⟩
  · intro now v s hinv
    cases h : lookupVuln s v.ID with
    | none =>
      simp only [UpsertVulnerability, h]
      intro r hr
      rcases List.mem_cons.mp hr with rfl | hmem
      · exact ⟨fun hco => by simp [insertedRecord] at hco, fun _ => rfl⟩
      · exact hinv r hmem
    | some r0 =>
      simp only [UpsertVulnerability, h]
      by_cases hfix : r0.State = VulnerabilityState.StateFixed
      · rw [if_pos hfix]
        intro r hr
        rcases List.mem_map.mp hr with ⟨x, hx, rfl⟩
        by_cases hxid : (x.ID == v.ID) = true
        · rw [if_pos hxid]
          exact ⟨fun hco => by simp at hco, fun _ => rfl⟩
        · rw [if_neg hxid]
          exact hinv x hx
      · rw [if_neg hfix]
        intro r hr
        rcases List.mem_map.mp hr with ⟨x, hx, rfl⟩
        by_cases hxid : (x.ID == v.ID) = true
        · rw [if_pos hxid]
          exact ⟨fun hco => (hinv x hx).1 hco, fun hop => (hinv x hx).2 hop⟩
        · rw [if_neg hxid]
          exact hinv x hx
  · intro now ids s hinv
    rw [markFixed_store_eq]
    intro r hr
    rcases List.mem_map.mp hr with ⟨x, hx, rfl⟩
    by_cases hcond : (x.State == VulnerabilityState.StateOpen &&
        !(ids.contains x.ID)) = true
    · rw [if_pos hcond]
      exact ⟨fun _ => by simp, fun hop => by simp at hop⟩
    · rw [if_neg hcond]
      exact hinv x hx

/-- C5 witness: the invariant, discharged on a concrete one-record store,
is preserved by marking everything fixed. -/
theorem state_fixedAt_invariant_witness :
    stateInv (MarkFixed 3 [] [recOpenA]).2 :=
  state_fixedAt_invariant.2.2 3 [] [recOpenA] (by
    intro r hr
    rw [List.mem_singleton] at hr
    subst hr
    exact ⟨fun hco => by simp [recOpenA] at hco, fun _ => rfl⟩)

/-- One channel block appends the channel to the attempted list exactly
when it is enabled, independent of the outcome. -/
lemma tryChannel_attempted (b : Bool) (c : Channel) (out : Channel → Bool)
    (acc : NotifyAcc) :
    (tryChannel b c out acc).attempted =
      acc.attempted ++ (if b then [c] else []) := by
  unfold tryChannel
  cases b <;> simp

/-- One channel block appends the channel to the collected errors exactly
when it is enabled and its send fails. -/
lemma tryChannel_errs (b : Bool) (c : Channel) (out : Channel → Bool)
    (acc : NotifyAcc) :
    (tryChannel b c out acc).errs =
      acc.errs ++ (if b && !(out c) then [c] else []) := by
  unfold tryChannel
  cases b <;> cases hoc : out c <;> simp [hoc]

/-- The channels attempted by the shared notifier body are exactly the
enabled ones, whatever the outcomes are. -/
lemma notifyChannels_attempted (cfg : Config) (out : Channel → Bool) :
    (notifyChannels cfg out).attempted = enabledChannels cfg := by
  unfold notifyChannels enabledChannels
  simp [tryChannel_attempted, List.append_assoc]

/-- The errors collected by the shared notifier body are exactly the
enabled channels whose sends failed. -/
lemma notifyChannels_failed (cfg : Config) (out : Channel → Bool) :
    (notifyChannels cfg out).failed =
      (enabledChannels cfg).filter (fun c => !(out c)) := by
  unfold notifyChannels enabledChannels
  by_cases h1 : (cfg.SlackWebhook != "") = true <;>
    by_cases h2 : (cfg.GenericWebhook != "") = true <;>
      by_cases h3 : (cfg.SaasEndpoint != "") = true <;>
        by_cases o1 : out Channel.slack = false <;>
          by_cases o2 : out Channel.webhook = false <;>
            by_cases o3 : out Channel.saas = false <;>
              simp [h1, h2, h3, o1, o2, o3, tryChannel_errs, List.filter_cons]

/-- The shared notifier body reports an error exactly when some enabled
channel failed. -/
lemma notifyChannels_hasError (cfg : Config) (out : Channel → Bool) :
    (notifyChannels cfg out).hasError = true ↔
      ∃ c ∈ enabledChannels cfg, out c = false := by
  have hh : (notifyChannels cfg out).hasError =
      !((notifyChannels cfg out).failed).isEmpty := rfl
  rw [hh, notifyChannels_failed]
  simp [List.isEmpty_iff, List.filter_eq_nil_iff]

/-- C7 counterexample: with the Slack channel enabled and failing but
every event below the severity threshold, `Notify` attempts no channel at
all — so it does not, as claimed for every event list, attempt delivery
to every enabled channel — and returns nil although the enabled channel
would have failed. -/
theorem notify_skips_enabled_channel_on_empty_filter :
    enabledChannels cfgSlackHigh = [Channel.slack] ∧
    outcomeFail Channel.slack = false ∧
    (Notify cfgSlackHigh outcomeFail [evLow]).attempted = [] ∧
    (Notify cfgSlackHigh outcomeFail [evLow]).hasError = false := by
  decide

/-- C7 amended: `NotifyInitialized` always, and `Notify` whenever the
severity filter keeps at least one event, attempt delivery to every
enabled channel — regardless of which channels fail — and return an
error exactly when the delivery of at least one enabled channel failed;
`Notify` with a fully filtered-out event list attempts nothing. -/
theorem notify_best_effort_all_channels (cfg : Config)
    (out : Channel → Bool) (events : List VulnerabilityEvent) :
    ((NotifyInitialized cfg out events).attempted = enabledChannels cfg ∧
     ((NotifyInitialized cfg out events).hasError = true ↔
       ∃ c ∈ enabledChannels cfg, out c = false)) ∧
    (filterBySeverity cfg.MinSeverity events ≠ [] →
      (Notify cfg out events).attempted = enabledChannels cfg ∧
      ((Notify cfg out events).hasError = true ↔
        ∃ c ∈ enabledChannels cfg, out c = false)) := by
  constructor
  · exact ⟨notifyChannels_attempted cfg out, notifyChannels_hasError cfg out⟩
  · intro hne
    have hf : (filterBySeverity cfg.MinSeverity events).isEmpty = false := by
      simpa [List.isEmpty_iff] using hne
    have hN : Notify cfg out events = notifyChannels cfg out := by
      simp only [Notify]
      rw [hf]
      simp
    rw [hN]
    exact ⟨notifyChannels_attempted cfg out, notifyChannels_hasError cfg out⟩

/-- C7 witness: a CRITICAL event against threshold HIGH with a failing
Slack channel: the channel is attempted and the aggregate call errors. -/
theorem notify_best_effort_all_channels_witness :
    (Notify cfgSlackHigh outcomeFail [evCritical]).attempted =
      enabledChannels cfgSlackHigh :=
  ((notify_best_effort_all_channels cfgSlackHigh outcomeFail
    [evCritical]).2 (by decide)).1

/-- Persisting a SaaS result never changes the `firstPoll` flag. -/
lemma handleSaasResult_firstPoll (res : Option SaasResult)
    (st : ServerModelState) :
    ((handleSaasResult res st).1).firstPoll = st.firstPoll := by
  cases res with
  | none => rfl
  | some r =>
    simp only [handleSaasResult]
    by_cases h : r.SyncedIDs.isEmpty = true
    · rw [if_pos h]
    · rw [if_neg h]
      rfl

/-- Persisting a SaaS result only ever records `markSynced` calls. -/
lemma handleSaasResult_calls (res : Option SaasResult)
    (st : ServerModelState) :
    ∀ c ∈ (handleSaasResult res st).2,
      ∃ ids, c = ServerCall.markSynced ids := by
  cases res with
  | none => intro c hc; exact absurd hc (List.not_mem_nil c)
  | some r =>
    intro c hc
    simp only [handleSaasResult] at hc
    by_cases h : r.SyncedIDs.isEmpty = true
    · rw [if_pos h] at hc
      exact absurd hc (List.not_mem_nil c)
    · rw [if_neg h] at hc
      exact ⟨r.SyncedIDs, List.mem_singleton.mp hc⟩

/-- The SaaS retry never changes the `firstPoll` flag. -/
lemma retrySaasSync_firstPoll (ss : List VulnerabilityEvent → SaasResult)
    (st : ServerModelState) :
    ((retrySaasSync ss st).1).firstPoll = st.firstPoll := by
  unfold retrySaasSync
  by_cases h : (GetUnsyncedVulnerabilities st).isEmpty = true
  · rw [if_pos h]
  · rw [if_neg h]
    exact handleSaasResult_firstPoll _ _

/-- The SaaS retry never records a `notifyInitialized` or
`notifyIncremental` call. -/
lemma retrySaasSync_calls (ss : List VulnerabilityEvent → SaasResult)
    (st : ServerModelState) :
    ∀ c ∈ (retrySaasSync ss st).2,
      (∀ evs, c ≠ ServerCall.notifyInitialized evs) ∧
      (∀ evs, c ≠ ServerCall.notifyIncremental evs) := by
  unfold retrySaasSync
  by_cases h : (GetUnsyncedVulnerabilities st).isEmpty = true
  · rw [if_pos h]
    intro c hc
    exact absurd hc (List.not_mem_nil c)
  · rw [if_neg h]
    intro c hc
    rcases List.mem_cons.mp hc with rfl | hmem
    · exact ⟨fun _ heq => ServerCall.noConfusion heq,
             fun _ heq => ServerCall.noConfusion heq⟩
    · rcases handleSaasResult_calls _ _ c hmem with ⟨ids, rfl⟩
      exact ⟨fun _ heq => ServerCall.noConfusion heq,
             fun _ heq => ServerCall.noConfusion heq⟩

/-- C2 counterexample: a restart with a non-empty pre-existing store
whose first cycle produces one event. The claim says no notification may
be sent, yet the cycle invokes `NotifyInitialized`: the code gates the
initialized summary on `len(events) > 0`, never on whether the store was
empty before the cycle. -/
theorem first_cycle_restart_still_notifies :
    stRestart.store ≠ [] ∧ stRestart.firstPoll = true ∧
    (serverPoll cfgSlackHigh 7 (.ok [findA, findB]) noSaasResult saasSendNone
      stRestart).2 =
      [ServerCall.notifyInitialized [newEvent (candidateRecord 7 findB)]] := by
  decide

/-- C2 amended: on the first poll cycle the notification decision depends
only on the event list of the cycle — if the cycle produced no events (as on a
typical restart with existing history), neither `NotifyInitialized` nor
`Notify` is invoked; if it produced at least one event and notifications
are configured, `NotifyInitialized` is invoked even when the store
already contained records; `Notify` is never invoked on the first
cycle. -/
theorem first_cycle_notification_policy (cfg : Config) (now : Nat)
    (fetch : Except String (List ScanFinding))
    (nr : List VulnerabilityEvent → Option SaasResult)
    (ss : List VulnerabilityEvent → SaasResult)
    (st : ServerModelState) (store1 : List VulnerabilityRecord)
    (events : List VulnerabilityEvent)
    (hpoll : Poll now fetch st.store = .ok (store1, events))
    (hfirst : st.firstPoll = true) :
    (events = [] → ∀ evs,
      ServerCall.notifyInitialized evs ∉ (serverPoll cfg now fetch nr ss st).2 ∧
      ServerCall.notifyIncremental evs ∉ (serverPoll cfg now fetch nr ss st).2) ∧
    (events ≠ [] → HasNotifications cfg = true →
      ServerCall.notifyInitialized events ∈ (serverPoll cfg now fetch nr ss st).2) ∧
    (∀ evs,
      ServerCall.notifyIncremental evs ∉ (serverPoll cfg now fetch nr ss st).2) := by
  simp only [serverPoll, hpoll]
  by_cases hn : HasNotifications cfg = true
  · simp only [hn, Bool.not_true, Bool.false_eq_true, if_false]
    by_cases hsa : (cfg.SaasEndpoint != "") = true
    · simp only [hsa, if_true]
      have hfp : ((retrySaasSync ss { st with store := store1 }).1).firstPoll
          = true := by
        rw [retrySaasSync_firstPoll]
        exact hfirst
      simp only [hfp, if_true]
      cases events with
      | nil =>
        simp only [List.length_nil, Nat.lt_irrefl, if_false]
        refine ⟨?_, ?_, ?_⟩
        · intro _ evs
          constructor
          · intro hmem
            exact ((retrySaasSync_calls ss _ _ hmem).1 evs) rfl
          · intro hmem
            exact ((retrySaasSync_calls ss _ _ hmem).2 evs) rfl
        · intro hne _
          exact absurd rfl hne
        · intro evs hmem
          exact ((retrySaasSync_calls ss _ _ hmem).2 evs) rfl
      | cons e rest =>
        simp only [List.length_cons, Nat.succ_pos, if_true]
        refine ⟨?_, ?_, ?_⟩
        · intro hco
          exact absurd hco (List.cons_ne_nil e rest)
        · intro _ _
          simp
        · intro evs hmem
          rcases List.mem_append.mp hmem with hmem1 | hmem2
          · rcases List.mem_append.mp hmem1 with hretry | hmid
            · exact ((retrySaasSync_calls ss _ _ hretry).2 evs) rfl
            · exact ServerCall.noConfusion (List.mem_singleton.mp hmid)
          · rcases handleSaasResult_calls _ _ _ hmem2 with ⟨ids, heq⟩
            exact ServerCall.noConfusion heq
    · simp only [hsa, if_false]
      simp only [hfirst, if_true]
      cases events with
      | nil =>
        simp only [List.length_nil, Nat.lt_irrefl, if_false]
        refine ⟨?_, ?_, ?_⟩
        · intro _ evs
          exact ⟨List.not_mem_nil _, List.not_mem_nil _⟩
        · intro hne _
          exact absurd rfl hne
        · intro evs
          exact List.not_mem_nil _
      | cons e rest =>
        simp only [List.length_cons, Nat.succ_pos, if_true]
        refine ⟨?_, ?_, ?_⟩
        · intro hco
          exact absurd hco (List.cons_ne_nil e rest)
        · intro _ _
          simp
        · intro evs hmem
          rcases List.mem_append.mp hmem with hmem1 | hmem2
          · rcases List.mem_append.mp hmem1 with hnil | hmid
            · exact absurd hnil (List.not_mem_nil _)
            · exact ServerCall.noConfusion (List.mem_singleton.mp hmid)
          · rcases handleSaasResult_calls _ _ _ hmem2 with ⟨ids, heq⟩
            exact ServerCall.noConfusion heq
  · have hn2 : HasNotifications cfg = false := by
      cases hx : HasNotifications cfg
      · rfl
      · exact absurd hx hn
    simp only [hn2, Bool.not_false, if_true]
    refine ⟨?_, ?_, ?_⟩
    · intro _ evs
      exact ⟨List.not_mem_nil _, List.not_mem_nil _⟩
    · intro _ hco
      exact absurd hco Bool.false_ne_true
    · intro evs
      exact List.not_mem_nil _

/-- C2 amended witness: a fresh install — empty store, one finding — whose
first cycle produces one event: `NotifyInitialized` is invoked. -/
theorem first_cycle_notification_policy_witness :
    ServerCall.notifyInitialized [newEvent (candidateRecord 7 findB)] ∈
      (serverPoll cfgSlackHigh 7 (.ok [findB]) noSaasResult saasSendNone
        (initialState [])).2 :=
  (first_cycle_notification_policy cfgSlackHigh 7 (.ok [findB]) noSaasResult
    saasSendNone (initialState [])
    [insertedRecord 7 (candidateRecord 7 findB)]
    [newEvent (candidateRecord 7 findB)]
    rfl rfl).2.1 (by decide) rfl

end Trix
